import Mathlib

/-!
Session manager JNI bridge (`sessionManager.c`)

A shallow embedding of `app/src/main/cpp/sessionManager.c`.

* Pointers (`jobject`, `jclass`, `jstring`, `JNIEnv*`, `ElaCarrier*`, `ElaSession*`) are
  natural numbers, `NULL` is `0`.
* A `const char*` is `none` (NULL) or `some buf`, the bytes readable at the address.
* The only `CallbackContext` object of the program is the static `callbackContext`, so a
  `CallbackContext*` is either NULL or the address of that object (`CCPtr`).
* Every call that leaves the translation unit (JNI, the carrier engine, the helpers of
  `utils.h`, `log.h`, `carrierCookie.h`, `sessionUtils.h`) appends an `Event` to the trace of
  the state; what such a call returns is read from a record of outcomes, one field per call
  site, over which the theorems quantify.
* A failed `assert`, a dereference of a NULL `CallbackContext*` and a string read that runs
  past its buffer end the run with a `Fault`.
-/

namespace SessionManager

abbrev Ptr := Nat

abbrev NULL : Ptr := 0

abbrev Byte := Nat

/-- A `const char*`: `none` is NULL, `some buf` points at the readable bytes `buf`. -/
abbrev CharPtr := Option (List Byte)

/-- The C string stored in a buffer: the bytes before the first NUL. A buffer that holds no
NUL has no C string in it (reading one runs past the buffer). -/
def cString (buf : List Byte) : Option (List Byte) :=
  if 0 ∈ buf then some (buf.takeWhile (fun b => b != 0)) else none

inductive Fault where
  | assertFailed
  | nullDeref
  | readOverrun
  deriving DecidableEq, Repr

deriving instance DecidableEq for Except

/-- A `CallbackContext*`: NULL or `&callbackContext`. -/
inductive CCPtr where
  | null
  | callbackContext
  deriving DecidableEq, Repr

/-- The callback functions of this file that are handed to the engine. -/
inductive Callback where
  | onSessionRequestCallback
  deriving DecidableEq, Repr

structure CallbackContext where
  env : Ptr
  clazz : Ptr
  carrier : Ptr
  handler : Ptr
  deriving DecidableEq, Repr

/-- One call that leaves `sessionManager.c`, with its arguments and (last) its result.
`callVoidMethod` carries the method name; its JNI signature string is built with the `_W` and
`_J` macros of `utils.h`, which is not among the sources, and is left out. -/
inductive Event where
  | attachJvm (env : Ptr) (needDetach : Int)
  | detachJvm (env : Ptr) (needDetach : Int)
  | logE (msg : String)
  | NewStringUTF (env : Ptr) (chars : List Byte) (result : Ptr)
  | DeleteLocalRef (env : Ptr) (ref : Ptr)
  | callVoidMethod (env clazz object : Ptr) (name : String) (args : List Ptr) (result : Bool)
  | GetObjectClass (env obj result : Ptr)
  | NewGlobalRef (env obj result : Ptr)
  | DeleteGlobalRef (env ref : Ptr)
  | getCarrier (env jcarrier result : Ptr)
  | ela_session_init (carrier : Ptr) (callback : Callback) (context : CCPtr) (result : Int)
  | ela_get_error (result : Int)
  | ela_session_cleanup (carrier : Ptr)
  | GetStringUTFChars (env jstr : Ptr) (result : CharPtr)
  | ReleaseStringUTFChars (env jstr : Ptr) (chars : CharPtr)
  | ela_session_new (carrier : Ptr) (to_ : CharPtr) (result : Ptr)
  | ela_session_close (session : Ptr)
  | newJavaSession (env session jto : Ptr) (result : Bool) (jsession : Ptr)
  deriving DecidableEq, Repr

/-- The values of `ELA_GENERAL_ERROR(ELAERR_LANGUAGE_BINDING)` and
`ELA_GENERAL_ERROR(ELAERR_OUT_OF_MEMORY)`; the macros come from `ela_carrier.h`, which is not
part of the sources, so the two values are parameters. -/
structure ElaErrors where
  languageBinding : Int
  outOfMemory : Int
  deriving DecidableEq, Repr

/-- The mutable state of the translation unit: the static `callbackContext`, the error code
cell behind `setErrorCode` / `_getErrorCode`, and the calls made so far (oldest first). -/
structure State where
  callbackContext : CallbackContext
  errorCode : Int
  trace : List Event
  deriving DecidableEq, Repr

def State.emit (s : State) (e : Event) : State :=
  { s with trace := s.trace ++ [e] }

/-- Modelled from the spec: `setErrorCode` of `utils.h` is not among the sources; the spec
describes the error code as the most recently recorded process-wide code, so recording
overwrites one cell. -/
def setErrorCode (code : Int) (s : State) : State :=
  { s with errorCode := code }

/-- Modelled from the spec: `_getErrorCode` of `utils.h` is not among the sources; it yields
the most recently recorded error code. -/
def _getErrorCode (s : State) : Int :=
  s.errorCode

/-- Outcomes of the calls made by one run of `onSessionRequestCallback`. -/
structure CallbackOutcomes where
  attachJvm_env : Ptr
  attachJvm_needDetach : Int
  NewStringUTF_from : Ptr
  NewStringUTF_sdp : Ptr
  callVoidMethod : Bool
  deriving DecidableEq, Repr

/-- Outcomes of the calls made by one run of `sessionMgrInit`. -/
structure InitOutcomes where
  GetObjectClass : Ptr
  NewGlobalRef_clazz : Ptr
  NewGlobalRef_carrier : Ptr
  NewGlobalRef_handler : Ptr
  getCarrier : Ptr
  ela_session_init : Int
  ela_get_error : Int
  deriving DecidableEq, Repr

/-- Outcomes of the calls made by one run of `createSession`. -/
structure CreateOutcomes where
  GetStringUTFChars : CharPtr
  getCarrier : Ptr
  ela_session_new : Ptr
  ela_get_error : Int
  newJavaSession : Bool
  newJavaSession_jsession : Ptr
  deriving DecidableEq, Repr

/-- `onSessionRequestCallback(carrier, from, sdp, len, context)`, lines 22-65. -/
def onSessionRequestCallback (o : CallbackOutcomes) (carrier : Ptr) (from_ sdp : CharPtr)
    (len : Nat) (context : CCPtr) (s : State) : Except Fault State := do
  if carrier = NULL then throw Fault.assertFailed
  let some fromBuf := from_ | throw Fault.assertFailed
  let some sdpBuf := sdp | throw Fault.assertFailed
  let _ := carrier
  let _ := len
  let cc := context
  let env := o.attachJvm_env
  let needDetach := o.attachJvm_needDetach
  let mut s := s.emit (Event.attachJvm env needDetach)
  if env = NULL then
    return s.emit (Event.logE "Attach JVM error")
  let some fromChars := cString fromBuf | throw Fault.readOverrun
  let jfrom := o.NewStringUTF_from
  s := s.emit (Event.NewStringUTF env fromChars jfrom)
  if jfrom = NULL then
    return s.emit (Event.detachJvm env needDetach)
  let some sdpChars := cString sdpBuf | throw Fault.readOverrun
  let jsdp := o.NewStringUTF_sdp
  s := s.emit (Event.NewStringUTF env sdpChars jsdp)
  if jsdp = NULL then
    s := s.emit (Event.DeleteLocalRef env jfrom)
    return s.emit (Event.detachJvm env needDetach)
  -- `cc->clazz`, `cc->handler`, `cc->carrier`
  if cc = CCPtr.null then throw Fault.nullDeref
  let ok := o.callVoidMethod
  s := s.emit (Event.callVoidMethod env s.callbackContext.clazz s.callbackContext.handler
    "onSessionRequest" [s.callbackContext.carrier, jfrom, jsdp] ok)
  if !ok then
    s := s.emit (Event.logE "Can not call method:\n\tvoid onSessionRequest(Carrier, String, String)")
  s := s.emit (Event.DeleteLocalRef env jsdp)
  s := s.emit (Event.DeleteLocalRef env jfrom)
  return s.emit (Event.detachJvm env needDetach)

/-- `callbackCtxtSet(hc, env, jcarrier, jhandler)`, lines 67-102. -/
def callbackCtxtSet (c : ElaErrors) (o : InitOutcomes) (hc : CCPtr) (env jcarrier jhandler : Ptr)
    (s : State) : Except Fault (Bool × State) := do
  let lclazz := o.GetObjectClass
  let mut s := s.emit (Event.GetObjectClass env jhandler lclazz)
  if lclazz = NULL then
    return (false, setErrorCode c.languageBinding s)
  let gclazz := o.NewGlobalRef_clazz
  s := s.emit (Event.NewGlobalRef env lclazz gclazz)
  let gjcarrier := o.NewGlobalRef_carrier
  s := s.emit (Event.NewGlobalRef env jcarrier gjcarrier)
  let gjhandler := o.NewGlobalRef_handler
  s := s.emit (Event.NewGlobalRef env jhandler gjhandler)
  if gclazz = NULL ∨ gjcarrier = NULL ∨ gjhandler = NULL then
    s := setErrorCode c.outOfMemory s
    -- errorExit:
    if gjhandler ≠ NULL then s := s.emit (Event.DeleteGlobalRef env gjhandler)
    if gjcarrier ≠ NULL then s := s.emit (Event.DeleteGlobalRef env gjcarrier)
    if gclazz ≠ NULL then s := s.emit (Event.DeleteGlobalRef env gclazz)
    return (false, s)
  if hc = CCPtr.null then throw Fault.nullDeref
  return (true, { s with callbackContext := ⟨NULL, gclazz, gjcarrier, gjhandler⟩ })

/-- `callbackCtxtCleanup(cc, env)`, lines 104-115. -/
def callbackCtxtCleanup (cc : CCPtr) (env : Ptr) (s : State) : Except Fault State := do
  if cc = CCPtr.null then throw Fault.assertFailed
  let mut s := s
  if s.callbackContext.clazz ≠ NULL then
    s := s.emit (Event.DeleteGlobalRef env s.callbackContext.clazz)
  if s.callbackContext.carrier ≠ NULL then
    s := s.emit (Event.DeleteGlobalRef env s.callbackContext.carrier)
  if s.callbackContext.handler ≠ NULL then
    s := s.emit (Event.DeleteGlobalRef env s.callbackContext.handler)
  return s

/-- `sessionMgrInit(env, clazz, jcarrier, jhandler)` (Java `native_init`), lines 117-144. -/
def sessionMgrInit (c : ElaErrors) (o : InitOutcomes) (env clazz jcarrier jhandler : Ptr)
    (s : State) : Except Fault (Bool × State) := do
  if jcarrier = NULL then throw Fault.assertFailed
  let _ := clazz
  -- memset(&callbackContext, 0, sizeof(callbackContext))
  let mut s := { s with callbackContext := ⟨0, 0, 0, 0⟩ }
  let mut hc := CCPtr.null
  if jhandler ≠ NULL then
    hc := CCPtr.callbackContext
    let (ok, s1) ← callbackCtxtSet c o hc env jcarrier jhandler s
    s := s1
    if !ok then
      return (false, setErrorCode c.languageBinding s)
  let carrier := o.getCarrier
  s := s.emit (Event.getCarrier env jcarrier carrier)
  let result := o.ela_session_init
  s := s.emit (Event.ela_session_init carrier Callback.onSessionRequestCallback hc result)
  if result < 0 then
    s := s.emit (Event.logE "Call ela_session_init API error")
    let e := o.ela_get_error
    s := s.emit (Event.ela_get_error e)
    return (false, setErrorCode e s)
  return (true, s)

/-- `sessionMgrCleanup(env, clazz, jcarrier)` (Java `native_cleanup`), lines 146-155; the only
outcome is what `getCarrier` returns. -/
def sessionMgrCleanup (getCarrierResult : Ptr) (env clazz jcarrier : Ptr) (s : State) :
    Except Fault State := do
  if jcarrier = NULL then throw Fault.assertFailed
  let _ := clazz
  let s ← callbackCtxtCleanup CCPtr.callbackContext env s
  let carrier := getCarrierResult
  let s := s.emit (Event.getCarrier env jcarrier carrier)
  return s.emit (Event.ela_session_cleanup carrier)

/-- `createSession(env, thiz, jcarrier, jto, jtype)` (Java `create_session`), lines 157-187.
The result is the returned `jobject`. -/
def createSession (c : ElaErrors) (o : CreateOutcomes) (env thiz jcarrier jto jtype : Ptr)
    (s : State) : Except Fault (Ptr × State) := do
  if jcarrier = NULL then throw Fault.assertFailed
  if jto = NULL then throw Fault.assertFailed
  let _ := thiz
  let _ := jtype
  let to_ := o.GetStringUTFChars
  let mut s := s.emit (Event.GetStringUTFChars env jto to_)
  if to_ = none then
    return (NULL, setErrorCode c.languageBinding s)
  let carrier := o.getCarrier
  s := s.emit (Event.getCarrier env jcarrier carrier)
  let session := o.ela_session_new
  s := s.emit (Event.ela_session_new carrier to_ session)
  s := s.emit (Event.ReleaseStringUTFChars env jto to_)
  if session = NULL then
    s := s.emit (Event.logE "Call ela_session_new API error")
    let e := o.ela_get_error
    s := s.emit (Event.ela_get_error e)
    return (NULL, setErrorCode e s)
  let mut jsession := NULL
  let ok := o.newJavaSession
  if ok then jsession := o.newJavaSession_jsession
  s := s.emit (Event.newJavaSession env session jto ok jsession)
  if !ok then
    s := s.emit (Event.ela_session_close session)
    return (NULL, setErrorCode c.languageBinding s)
  return (jsession, s)

/-- `getErrorCode(env, clazz)` (Java `get_error_code`), lines 189-196. -/
def getErrorCode (env clazz : Ptr) (s : State) : Int :=
  let _ := env
  let _ := clazz
  _getErrorCode s

/-- The state at module load: a zero-initialised static `callbackContext`, no call made. -/
def State.init (errorCode : Int) : State :=
  { callbackContext := ⟨0, 0, 0, 0⟩, errorCode := errorCode, trace := [] }

/-! ## Observations on a trace -/

/-- The global references held after a trace: every non-NULL result of `NewGlobalRef`, in
the order of acquisition, less the ones passed to `DeleteGlobalRef` since. -/
def heldGlobalRefs (t : List Event) : List Ptr :=
  t.foldl (fun held e => match e with
    | Event.NewGlobalRef _ _ r => if r = NULL then held else held ++ [r]
    | Event.DeleteGlobalRef _ r => held.erase r
    | _ => held) []

/-- The native sessions passed to `ela_session_close` in a trace. -/
def closedSessions (t : List Event) : List Ptr :=
  t.filterMap fun e => match e with
    | Event.ela_session_close session => some session
    | _ => none

/-- The context the engine holds for the callback after a trace: the context argument of the
most recent `ela_session_init` call that did not fail. -/
def registeredContext (t : List Event) : Option CCPtr :=
  t.foldl (fun reg e => match e with
    | Event.ela_session_init _ _ context result => if result < 0 then reg else some context
    | _ => reg) none

/-! ## Helper lemmas -/

/-- A run of `sessionMgrInit` with a handler that returns true went through every step: the
class lookup and the three conversions succeeded, the engine accepted the registration, and
the state is the one below. -/
theorem sessionMgrInit_true_inv (c : ElaErrors) (o : InitOutcomes) (env clazz H HANDLER : Ptr)
    (s s1 : State) (hh : HANDLER ≠ NULL)
    (hrun : sessionMgrInit c o env clazz H HANDLER s = Except.ok (true, s1)) :
    s1 =
      { callbackContext :=
          ⟨NULL, o.NewGlobalRef_clazz, o.NewGlobalRef_carrier, o.NewGlobalRef_handler⟩,
        errorCode := s.errorCode,
        trace := s.trace ++
          [Event.GetObjectClass env HANDLER o.GetObjectClass,
           Event.NewGlobalRef env o.GetObjectClass o.NewGlobalRef_clazz,
           Event.NewGlobalRef env H o.NewGlobalRef_carrier,
           Event.NewGlobalRef env HANDLER o.NewGlobalRef_handler,
           Event.getCarrier env H o.getCarrier,
           Event.ela_session_init o.getCarrier Callback.onSessionRequestCallback
             CCPtr.callbackContext o.ela_session_init] } ∧
      H ≠ NULL ∧ o.GetObjectClass ≠ NULL ∧ o.NewGlobalRef_clazz ≠ NULL ∧
      o.NewGlobalRef_carrier ≠ NULL ∧ o.NewGlobalRef_handler ≠ NULL ∧
      0 ≤ o.ela_session_init := by
  simp only [sessionMgrInit, callbackCtxtSet, bind, Except.bind, pure, Except.pure, throw,
    throwThe, MonadExceptOf.throw, State.emit, setErrorCode] at hrun
  split_ifs at hrun <;> simp_all

/-- A run of `sessionMgrInit` without a handler leaves the registry all-unset, whatever it
returns. -/
theorem sessionMgrInit_null_handler_registry (c : ElaErrors) (o : InitOutcomes)
    (env clazz H : Ptr) (s s1 : State) (r : Bool)
    (hrun : sessionMgrInit c o env clazz H NULL s = Except.ok (r, s1)) :
    s1.callbackContext = ⟨NULL, NULL, NULL, NULL⟩ := by
  simp only [sessionMgrInit, bind, Except.bind, pure, Except.pure, throw,
    throwThe, MonadExceptOf.throw, State.emit, setErrorCode] at hrun
  split_ifs at hrun <;> simp_all <;> (obtain ⟨-, rfl⟩ := hrun; rfl)

/-- `sessionMgrCleanup` on a state whose registry is all-unset deletes nothing. -/
theorem sessionMgrCleanup_unset (g env clazz jcarrier : Ptr) (s : State)
    (hj : jcarrier ≠ NULL) (hreg : s.callbackContext = ⟨NULL, NULL, NULL, NULL⟩) :
    sessionMgrCleanup g env clazz jcarrier s =
      Except.ok { s with trace := s.trace ++
        [Event.getCarrier env jcarrier g, Event.ela_session_cleanup g] } := by
  simp [sessionMgrCleanup, callbackCtxtCleanup, bind, Except.bind, pure, Except.pure,
    State.emit, hj, hreg]

/-- What `sessionMgrInit` does when the lookup of the handler class fails. -/
theorem sessionMgrInit_classLookup_fails (c : ElaErrors) (o : InitOutcomes)
    (env clazz jcarrier jhandler : Ptr) (s : State) (hj : jcarrier ≠ NULL)
    (hh : jhandler ≠ NULL) (hc : o.GetObjectClass = NULL) :
    sessionMgrInit c o env clazz jcarrier jhandler s =
      Except.ok (false,
        { callbackContext := ⟨NULL, NULL, NULL, NULL⟩,
          errorCode := c.languageBinding,
          trace := s.trace ++ [Event.GetObjectClass env jhandler NULL] }) := by
  simp [sessionMgrInit, callbackCtxtSet, bind, Except.bind, pure, Except.pure, State.emit,
    setErrorCode, hj, hh, hc]

/-- What `sessionMgrInit` does when the class lookup succeeds and one of the three
`NewGlobalRef` calls returns NULL: it deletes the references it got (handler, carrier, class
in that order), leaves the registry all-unset and returns false with the language-binding
error code recorded last. -/
theorem sessionMgrInit_globalRef_fails (c : ElaErrors) (o : InitOutcomes)
    (env clazz jcarrier jhandler : Ptr) (s : State) (hj : jcarrier ≠ NULL)
    (hh : jhandler ≠ NULL) (hc : o.GetObjectClass ≠ NULL)
    (hfail : o.NewGlobalRef_clazz = NULL ∨ o.NewGlobalRef_carrier = NULL ∨
      o.NewGlobalRef_handler = NULL) :
    sessionMgrInit c o env clazz jcarrier jhandler s =
      Except.ok (false,
        { callbackContext := ⟨NULL, NULL, NULL, NULL⟩,
          errorCode := c.languageBinding,
          trace := s.trace ++
            ([Event.GetObjectClass env jhandler o.GetObjectClass,
              Event.NewGlobalRef env o.GetObjectClass o.NewGlobalRef_clazz,
              Event.NewGlobalRef env jcarrier o.NewGlobalRef_carrier,
              Event.NewGlobalRef env jhandler o.NewGlobalRef_handler] ++
             (if o.NewGlobalRef_handler = NULL then []
              else [Event.DeleteGlobalRef env o.NewGlobalRef_handler]) ++
             (if o.NewGlobalRef_carrier = NULL then []
              else [Event.DeleteGlobalRef env o.NewGlobalRef_carrier]) ++
             (if o.NewGlobalRef_clazz = NULL then []
              else [Event.DeleteGlobalRef env o.NewGlobalRef_clazz])) }) := by
  by_cases h1 : o.NewGlobalRef_clazz = NULL <;> by_cases h2 : o.NewGlobalRef_carrier = NULL <;>
    by_cases h3 : o.NewGlobalRef_handler = NULL <;>
    first
    | (exfalso; rcases hfail with h | h | h <;> contradiction)
    | simp [sessionMgrInit, callbackCtxtSet, bind, Except.bind, pure, Except.pure, State.emit,
        setErrorCode, hj, hh, hc, h1, h2, h3]

/-- What `sessionMgrInit` does with a handler when the class lookup and the three
`NewGlobalRef` calls succeed: the registry is filled, the engine is called, and on a negative
engine result the function returns false with the registry still filled. -/
theorem sessionMgrInit_registered (c : ElaErrors) (o : InitOutcomes)
    (env clazz jcarrier jhandler : Ptr) (s : State) (hj : jcarrier ≠ NULL)
    (hh : jhandler ≠ NULL) (hc : o.GetObjectClass ≠ NULL) (h1 : o.NewGlobalRef_clazz ≠ NULL)
    (h2 : o.NewGlobalRef_carrier ≠ NULL) (h3 : o.NewGlobalRef_handler ≠ NULL) :
    sessionMgrInit c o env clazz jcarrier jhandler s =
      Except.ok (decide (0 ≤ o.ela_session_init),
        { callbackContext :=
            ⟨NULL, o.NewGlobalRef_clazz, o.NewGlobalRef_carrier, o.NewGlobalRef_handler⟩,
          errorCode := if o.ela_session_init < 0 then o.ela_get_error else s.errorCode,
          trace := s.trace ++
            ([Event.GetObjectClass env jhandler o.GetObjectClass,
              Event.NewGlobalRef env o.GetObjectClass o.NewGlobalRef_clazz,
              Event.NewGlobalRef env jcarrier o.NewGlobalRef_carrier,
              Event.NewGlobalRef env jhandler o.NewGlobalRef_handler,
              Event.getCarrier env jcarrier o.getCarrier,
              Event.ela_session_init o.getCarrier Callback.onSessionRequestCallback
                CCPtr.callbackContext o.ela_session_init] ++
             (if o.ela_session_init < 0 then
                [Event.logE "Call ela_session_init API error",
                 Event.ela_get_error o.ela_get_error]
              else [])) }) := by
  by_cases hr : o.ela_session_init < 0
  · simp [sessionMgrInit, callbackCtxtSet, bind, Except.bind, pure, Except.pure, State.emit,
      setErrorCode, hj, hh, hc, h1, h2, h3, hr]
  · simp [sessionMgrInit, callbackCtxtSet, bind, Except.bind, pure, Except.pure, State.emit,
      setErrorCode, hj, hh, hc, h1, h2, h3, hr, not_lt.mp hr]

/-- What `sessionMgrInit` does without a handler. -/
theorem sessionMgrInit_null_handler (c : ElaErrors) (o : InitOutcomes)
    (env clazz jcarrier : Ptr) (s : State) (hj : jcarrier ≠ NULL) :
    sessionMgrInit c o env clazz jcarrier NULL s =
      Except.ok (decide (0 ≤ o.ela_session_init),
        { callbackContext := ⟨NULL, NULL, NULL, NULL⟩,
          errorCode := if o.ela_session_init < 0 then o.ela_get_error else s.errorCode,
          trace := s.trace ++
            ([Event.getCarrier env jcarrier o.getCarrier,
              Event.ela_session_init o.getCarrier Callback.onSessionRequestCallback
                CCPtr.null o.ela_session_init] ++
             (if o.ela_session_init < 0 then
                [Event.logE "Call ela_session_init API error",
                 Event.ela_get_error o.ela_get_error]
              else [])) }) := by
  by_cases hr : o.ela_session_init < 0
  · simp [sessionMgrInit, bind, Except.bind, pure, Except.pure, State.emit,
      setErrorCode, hj, hr]
  · simp [sessionMgrInit, bind, Except.bind, pure, Except.pure, State.emit,
      setErrorCode, hj, hr, not_lt.mp hr]

/-! ## The claims -/

/-- C8 (handler-less initialization): for every non-NULL carrier handle `H` and every prior
state (registry content included), `sessionMgrInit` called with a NULL handler and an engine
`ela_session_init` result that is not negative returns true; the registry is all-unset; the
only calls made are `getCarrier` and `ela_session_init` (no `NewGlobalRef`); and
`ela_session_init` receives `onSessionRequestCallback` together with a NULL context. -/
theorem sessionMgrInit_without_handler (c : ElaErrors) (o : InitOutcomes) (env clazz H : Ptr)
    (s : State) (hH : H ≠ NULL) (hres : 0 ≤ o.ela_session_init) :
    sessionMgrInit c o env clazz H NULL s =
      Except.ok (true,
        { callbackContext := ⟨NULL, NULL, NULL, NULL⟩,
          errorCode := s.errorCode,
          trace := s.trace ++
            [Event.getCarrier env H o.getCarrier,
             Event.ela_session_init o.getCarrier Callback.onSessionRequestCallback CCPtr.null
               o.ela_session_init] }) := by
  simp [sessionMgrInit, hH, State.emit, not_lt.mpr hres]
  rfl

theorem sessionMgrInit_without_handler_witness :
    sessionMgrInit ⟨-1, -2⟩ ⟨0, 0, 0, 0, 20, 0, 0⟩ 1 2 3 NULL
        { callbackContext := ⟨5, 6, 7, 8⟩, errorCode := 9, trace := [] } =
      Except.ok (true,
        { callbackContext := ⟨NULL, NULL, NULL, NULL⟩,
          errorCode := 9,
          trace := [Event.getCarrier 1 3 20,
            Event.ela_session_init 20 Callback.onSessionRequestCallback CCPtr.null 0] }) :=
  sessionMgrInit_without_handler ⟨-1, -2⟩ ⟨0, 0, 0, 0, 20, 0, 0⟩ 1 2 3
    { callbackContext := ⟨5, 6, 7, 8⟩, errorCode := 9, trace := [] } (by decide) (by decide)

/-- C4 (no double release in cleanup): for a non-NULL carrier argument,
(1) one `sessionMgrCleanup` after a `sessionMgrInit` with a handler that returned true (run
on the state it left, or on any later state with the same registry) makes exactly five
calls: `DeleteGlobalRef` on the class reference, on the carrier reference and on the handler
reference of the registry (the three results of `NewGlobalRef`), then `getCarrier` and
`ela_session_cleanup`;
(2) one `sessionMgrCleanup` on the never-initialised state makes only `getCarrier` and
`ela_session_cleanup`;
(3) so does one `sessionMgrCleanup` after a `sessionMgrInit` without a handler.
In all three the registry release comes before the single `ela_session_cleanup`. -/
theorem sessionMgrCleanup_releases_once (c : ElaErrors) (o : InitOutcomes)
    (env clazz H HANDLER g env2 clazz2 jcarrier : Ptr) (e : Int) (r : Bool) (s0 s1 : State)
    (hj : jcarrier ≠ NULL) :
    (HANDLER ≠ NULL → sessionMgrInit c o env clazz H HANDLER s0 = Except.ok (true, s1) →
      s1.callbackContext =
        ⟨NULL, o.NewGlobalRef_clazz, o.NewGlobalRef_carrier, o.NewGlobalRef_handler⟩ ∧
      ∀ s : State, s.callbackContext = s1.callbackContext →
      sessionMgrCleanup g env2 clazz2 jcarrier s =
        Except.ok { s with trace := s.trace ++
          [Event.DeleteGlobalRef env2 o.NewGlobalRef_clazz,
           Event.DeleteGlobalRef env2 o.NewGlobalRef_carrier,
           Event.DeleteGlobalRef env2 o.NewGlobalRef_handler,
           Event.getCarrier env2 jcarrier g,
           Event.ela_session_cleanup g] }) ∧
    sessionMgrCleanup g env2 clazz2 jcarrier (State.init e) =
      Except.ok { State.init e with trace :=
        [Event.getCarrier env2 jcarrier g, Event.ela_session_cleanup g] } ∧
    (sessionMgrInit c o env clazz H NULL s0 = Except.ok (r, s1) →
      sessionMgrCleanup g env2 clazz2 jcarrier s1 =
        Except.ok { s1 with trace := s1.trace ++
          [Event.getCarrier env2 jcarrier g, Event.ela_session_cleanup g] }) := by
  refine ⟨?_, ?_, ?_⟩
  · intro hh hrun
    obtain ⟨rfl, -, -, h1, h2, h3, -⟩ :=
      sessionMgrInit_true_inv c o env clazz H HANDLER s0 s1 hh hrun
    refine ⟨rfl, fun s hs => ?_⟩
    simp only at hs
    simp [sessionMgrCleanup, callbackCtxtCleanup, bind, Except.bind, pure, Except.pure,
      State.emit, hj, hs, h1, h2, h3]
  · simpa [State.init] using sessionMgrCleanup_unset g env2 clazz2 jcarrier (State.init e) hj rfl
  · intro hrun
    exact sessionMgrCleanup_unset g env2 clazz2 jcarrier s1 hj
      (sessionMgrInit_null_handler_registry c o env clazz H s0 s1 r hrun)

theorem sessionMgrCleanup_releases_once_witness :
    sessionMgrCleanup 20 1 2 3
        { callbackContext := ⟨NULL, 11, 12, 13⟩, errorCode := 0,
          trace := [Event.GetObjectClass 1 4 10, Event.NewGlobalRef 1 10 11,
            Event.NewGlobalRef 1 3 12, Event.NewGlobalRef 1 4 13, Event.getCarrier 1 3 20,
            Event.ela_session_init 20 Callback.onSessionRequestCallback
              CCPtr.callbackContext 0] } =
      Except.ok
        { callbackContext := ⟨NULL, 11, 12, 13⟩, errorCode := 0,
          trace := [Event.GetObjectClass 1 4 10, Event.NewGlobalRef 1 10 11,
            Event.NewGlobalRef 1 3 12, Event.NewGlobalRef 1 4 13, Event.getCarrier 1 3 20,
            Event.ela_session_init 20 Callback.onSessionRequestCallback
              CCPtr.callbackContext 0,
            Event.DeleteGlobalRef 1 11, Event.DeleteGlobalRef 1 12, Event.DeleteGlobalRef 1 13,
            Event.getCarrier 1 3 20, Event.ela_session_cleanup 20] } ∧
    sessionMgrCleanup 20 1 2 3 (State.init 0) =
      Except.ok { State.init 0 with trace :=
        [Event.getCarrier 1 3 20, Event.ela_session_cleanup 20] } :=
  ⟨((sessionMgrCleanup_releases_once ⟨-1, -2⟩ ⟨10, 11, 12, 13, 20, 0, 0⟩ 1 2 3 4 20 1 2 3 0 true
      (State.init 0) _ (by decide)).1 (by decide) rfl).2 _ rfl,
   (sessionMgrCleanup_releases_once ⟨-1, -2⟩ ⟨10, 11, 12, 13, 20, 0, 0⟩ 1 2 3 4 20 1 2 3 0 true
      (State.init 0) (State.init 0) (by decide)).2.1⟩

/-- C6 (exactly-once dispatch): let `sessionMgrInit` with carrier `H` and a non-NULL handler
return true, leaving state `s1`. Then the engine holds `&callbackContext` as the callback
context, the registry holds the three results of `NewGlobalRef` (the carrier field being the
global reference made from `H`), and for every inbound request with non-NULL engine handle
on which `attachJvm` and both `NewStringUTF` calls succeed, `onSessionRequestCallback` (run
with that context on `s1`, or on any later state with the same registry) makes exactly these
calls: `attachJvm`, `NewStringUTF` on the sender, `NewStringUTF` on the payload,
one `callVoidMethod` of `onSessionRequest` on the registry class and handler with arguments
(registry carrier, sender string, payload string), a `logE` only when that call reported
failure, `DeleteLocalRef` on the payload string, `DeleteLocalRef` on the sender string, and
`detachJvm` with the `needDetach` value `attachJvm` gave. Registry and error code stay as
they were. -/
theorem onSessionRequestCallback_dispatches_once (c : ElaErrors) (oi : InitOutcomes)
    (oc : CallbackOutcomes) (env clazz H HANDLER carrier : Ptr)
    (fromBuf sdpBuf fromChars sdpChars : List Byte) (len : Nat) (s0 s1 : State)
    (hinit : sessionMgrInit c oi env clazz H HANDLER s0 = Except.ok (true, s1))
    (hh : HANDLER ≠ NULL) (hcar : carrier ≠ NULL) (hattach : oc.attachJvm_env ≠ NULL)
    (hfrom : cString fromBuf = some fromChars) (hjfrom : oc.NewStringUTF_from ≠ NULL)
    (hsdp : cString sdpBuf = some sdpChars) (hjsdp : oc.NewStringUTF_sdp ≠ NULL) :
    registeredContext s1.trace = some CCPtr.callbackContext ∧
    s1.callbackContext =
      ⟨NULL, oi.NewGlobalRef_clazz, oi.NewGlobalRef_carrier, oi.NewGlobalRef_handler⟩ ∧
    Event.NewGlobalRef env H oi.NewGlobalRef_carrier ∈ s1.trace ∧
    ∀ s : State, s.callbackContext = s1.callbackContext →
    onSessionRequestCallback oc carrier (some fromBuf) (some sdpBuf) len
        CCPtr.callbackContext s =
      Except.ok { s with trace := s.trace ++
        ([Event.attachJvm oc.attachJvm_env oc.attachJvm_needDetach,
          Event.NewStringUTF oc.attachJvm_env fromChars oc.NewStringUTF_from,
          Event.NewStringUTF oc.attachJvm_env sdpChars oc.NewStringUTF_sdp,
          Event.callVoidMethod oc.attachJvm_env oi.NewGlobalRef_clazz oi.NewGlobalRef_handler
            "onSessionRequest"
            [oi.NewGlobalRef_carrier, oc.NewStringUTF_from, oc.NewStringUTF_sdp]
            oc.callVoidMethod] ++
         (if oc.callVoidMethod then []
          else [Event.logE
            "Can not call method:\n\tvoid onSessionRequest(Carrier, String, String)"]) ++
         [Event.DeleteLocalRef oc.attachJvm_env oc.NewStringUTF_sdp,
          Event.DeleteLocalRef oc.attachJvm_env oc.NewStringUTF_from,
          Event.detachJvm oc.attachJvm_env oc.attachJvm_needDetach]) } := by
  obtain ⟨rfl, -, -, -, -, -, hres⟩ :=
    sessionMgrInit_true_inv c oi env clazz H HANDLER s0 s1 hh hinit
  refine ⟨?_, rfl, by simp, fun s hs => ?_⟩
  · simp [registeredContext, List.foldl_append, not_lt.mpr hres]
  · simp only at hs
    cases hok : oc.callVoidMethod <;>
      simp [onSessionRequestCallback, bind, Except.bind, pure, Except.pure, State.emit, hcar,
        hattach, hfrom, hjfrom, hsdp, hjsdp, hok, hs]

theorem onSessionRequestCallback_dispatches_once_witness :
    onSessionRequestCallback ⟨7, 1, 31, 32, true⟩ 20
        (some [112, 101, 101, 114, 45, 52, 50, 0]) (some [118, 61, 48, 0]) 3
        CCPtr.callbackContext
        { callbackContext := ⟨NULL, 11, 12, 13⟩, errorCode := 0,
          trace := [Event.GetObjectClass 1 4 10, Event.NewGlobalRef 1 10 11,
            Event.NewGlobalRef 1 3 12, Event.NewGlobalRef 1 4 13, Event.getCarrier 1 3 20,
            Event.ela_session_init 20 Callback.onSessionRequestCallback
              CCPtr.callbackContext 0] } =
      Except.ok
        { callbackContext := ⟨NULL, 11, 12, 13⟩, errorCode := 0,
          trace := [Event.GetObjectClass 1 4 10, Event.NewGlobalRef 1 10 11,
            Event.NewGlobalRef 1 3 12, Event.NewGlobalRef 1 4 13, Event.getCarrier 1 3 20,
            Event.ela_session_init 20 Callback.onSessionRequestCallback
              CCPtr.callbackContext 0,
            Event.attachJvm 7 1,
            Event.NewStringUTF 7 [112, 101, 101, 114, 45, 52, 50] 31,
            Event.NewStringUTF 7 [118, 61, 48] 32,
            Event.callVoidMethod 7 11 13 "onSessionRequest" [12, 31, 32] true,
            Event.DeleteLocalRef 7 32, Event.DeleteLocalRef 7 31, Event.detachJvm 7 1] } :=
  (onSessionRequestCallback_dispatches_once ⟨-1, -2⟩ ⟨10, 11, 12, 13, 20, 0, 0⟩
    ⟨7, 1, 31, 32, true⟩ 1 2 3 4 20 [112, 101, 101, 114, 45, 52, 50, 0] [118, 61, 48, 0]
    [112, 101, 101, 114, 45, 52, 50] [118, 61, 48] 3 (State.init 0) _
    rfl (by decide) (by decide) (by decide) rfl (by decide) rfl (by decide)).2.2.2 _ rfl

/-- C5 (callback isolation): for every inbound request with non-NULL engine handle on which
`attachJvm` succeeds, whatever the context pointer is,
(1) if `NewStringUTF` fails on the sender, the callback makes exactly the calls `attachJvm`,
`NewStringUTF` (sender), `detachJvm` with the `needDetach` value from `attachJvm`: no string
is deleted and no handler is invoked;
(2) if it succeeds on the sender and fails on the payload, the callback makes exactly the
calls `attachJvm`, `NewStringUTF` (sender), `NewStringUTF` (payload), `DeleteLocalRef` on the
sender string, `detachJvm` with the `needDetach` value from `attachJvm`: no handler is
invoked.
Registry and error code stay as they were. -/
theorem onSessionRequestCallback_conversion_failure (oc : CallbackOutcomes) (carrier : Ptr)
    (fromBuf sdpBuf fromChars : List Byte) (len : Nat) (context : CCPtr) (s : State)
    (hcar : carrier ≠ NULL) (hattach : oc.attachJvm_env ≠ NULL)
    (hfrom : cString fromBuf = some fromChars) :
    (oc.NewStringUTF_from = NULL →
      onSessionRequestCallback oc carrier (some fromBuf) (some sdpBuf) len context s =
        Except.ok { s with trace := s.trace ++
          [Event.attachJvm oc.attachJvm_env oc.attachJvm_needDetach,
           Event.NewStringUTF oc.attachJvm_env fromChars NULL,
           Event.detachJvm oc.attachJvm_env oc.attachJvm_needDetach] }) ∧
    (oc.NewStringUTF_from ≠ NULL → oc.NewStringUTF_sdp = NULL →
      ∀ sdpChars, cString sdpBuf = some sdpChars →
      onSessionRequestCallback oc carrier (some fromBuf) (some sdpBuf) len context s =
        Except.ok { s with trace := s.trace ++
          [Event.attachJvm oc.attachJvm_env oc.attachJvm_needDetach,
           Event.NewStringUTF oc.attachJvm_env fromChars oc.NewStringUTF_from,
           Event.NewStringUTF oc.attachJvm_env sdpChars NULL,
           Event.DeleteLocalRef oc.attachJvm_env oc.NewStringUTF_from,
           Event.detachJvm oc.attachJvm_env oc.attachJvm_needDetach] }) := by
  constructor
  · intro hjfrom
    simp [onSessionRequestCallback, bind, Except.bind, pure, Except.pure, State.emit, hcar,
      hattach, hfrom, hjfrom]
  · intro hjfrom hjsdp sdpChars hsdp
    simp [onSessionRequestCallback, bind, Except.bind, pure, Except.pure, State.emit, hcar,
      hattach, hfrom, hjfrom, hsdp, hjsdp]

theorem onSessionRequestCallback_conversion_failure_witness :
    onSessionRequestCallback ⟨7, 1, NULL, 32, true⟩ 20 (some [112, 0]) (some [118, 61, 48, 0]) 3
        CCPtr.callbackContext (State.init 0) =
      Except.ok { State.init 0 with trace :=
        [Event.attachJvm 7 1, Event.NewStringUTF 7 [112] NULL, Event.detachJvm 7 1] } ∧
    onSessionRequestCallback ⟨7, 1, 31, NULL, true⟩ 20 (some [112, 0]) (some [118, 61, 48, 0]) 3
        CCPtr.null (State.init 0) =
      Except.ok { State.init 0 with trace :=
        [Event.attachJvm 7 1, Event.NewStringUTF 7 [112] 31,
         Event.NewStringUTF 7 [118, 61, 48] NULL, Event.DeleteLocalRef 7 31,
         Event.detachJvm 7 1] } :=
  ⟨(onSessionRequestCallback_conversion_failure ⟨7, 1, NULL, 32, true⟩ 20 [112, 0]
      [118, 61, 48, 0] [112] 3 CCPtr.callbackContext (State.init 0)
      (by decide) (by decide) rfl).1 rfl,
   (onSessionRequestCallback_conversion_failure ⟨7, 1, 31, NULL, true⟩ 20 [112, 0]
      [118, 61, 48, 0] [112] 3 CCPtr.null (State.init 0)
      (by decide) (by decide) rfl).2 (by decide) rfl [118, 61, 48] rfl⟩

/-- C10 (the callback ignores `len`):
(1) for every outcome record, engine handle, sender, payload, context and state, and every
two lengths, `onSessionRequestCallback` gives the same result (same calls in the same order,
same final state, same fault if any);
(2) whatever `len` is, when the handler is reached the payload string handed to it is the
one `NewStringUTF` built from the bytes of the payload buffer before its first NUL;
(3) that string is in general not the first `len` bytes of the buffer: for the buffer
`v NUL =` of length 3 the string is `v`, the first 3 bytes are the whole buffer. -/
theorem onSessionRequestCallback_ignores_len :
    (∀ (oc : CallbackOutcomes) (carrier : Ptr) (from_ sdp : CharPtr) (len1 len2 : Nat)
        (context : CCPtr) (s : State),
      onSessionRequestCallback oc carrier from_ sdp len1 context s =
        onSessionRequestCallback oc carrier from_ sdp len2 context s) ∧
    (∀ (oc : CallbackOutcomes) (carrier : Ptr) (fromBuf sdpBuf fromChars : List Byte)
        (len : Nat) (s : State),
      carrier ≠ NULL → oc.attachJvm_env ≠ NULL → cString fromBuf = some fromChars →
      oc.NewStringUTF_from ≠ NULL → 0 ∈ sdpBuf → oc.NewStringUTF_sdp ≠ NULL →
      onSessionRequestCallback oc carrier (some fromBuf) (some sdpBuf) len
          CCPtr.callbackContext s =
        Except.ok { s with trace := s.trace ++
          ([Event.attachJvm oc.attachJvm_env oc.attachJvm_needDetach,
            Event.NewStringUTF oc.attachJvm_env fromChars oc.NewStringUTF_from,
            Event.NewStringUTF oc.attachJvm_env (sdpBuf.takeWhile (fun b => b != 0))
              oc.NewStringUTF_sdp,
            Event.callVoidMethod oc.attachJvm_env s.callbackContext.clazz
              s.callbackContext.handler "onSessionRequest"
              [s.callbackContext.carrier, oc.NewStringUTF_from, oc.NewStringUTF_sdp]
              oc.callVoidMethod] ++
           (if oc.callVoidMethod then []
            else [Event.logE
              "Can not call method:\n\tvoid onSessionRequest(Carrier, String, String)"]) ++
           [Event.DeleteLocalRef oc.attachJvm_env oc.NewStringUTF_sdp,
            Event.DeleteLocalRef oc.attachJvm_env oc.NewStringUTF_from,
            Event.detachJvm oc.attachJvm_env oc.attachJvm_needDetach]) }) ∧
    (cString [118, 0, 61] = some [118] ∧ List.take 3 [118, 0, 61] ≠ [118]) := by
  refine ⟨fun _ _ _ _ _ _ _ _ => rfl, ?_, by decide⟩
  intro oc carrier fromBuf sdpBuf fromChars len s hcar hattach hfrom hjfrom hnul hjsdp
  have hsdp : cString sdpBuf = some (sdpBuf.takeWhile (fun b => b != 0)) := by
    simp [cString, hnul]
  cases hok : oc.callVoidMethod <;>
    simp [onSessionRequestCallback, bind, Except.bind, pure, Except.pure, State.emit, hcar,
      hattach, hfrom, hjfrom, hsdp, hjsdp, hok]

theorem onSessionRequestCallback_ignores_len_witness :
    onSessionRequestCallback ⟨7, 1, 31, 32, true⟩ 20 (some [112, 0]) (some [118, 0, 61]) 3
        CCPtr.callbackContext
        { callbackContext := ⟨NULL, 11, 12, 13⟩, errorCode := 0, trace := [] } =
      Except.ok
        { callbackContext := ⟨NULL, 11, 12, 13⟩, errorCode := 0,
          trace := [Event.attachJvm 7 1, Event.NewStringUTF 7 [112] 31,
            Event.NewStringUTF 7 [118] 32,
            Event.callVoidMethod 7 11 13 "onSessionRequest" [12, 31, 32] true,
            Event.DeleteLocalRef 7 32, Event.DeleteLocalRef 7 31, Event.detachJvm 7 1] } :=
  onSessionRequestCallback_ignores_len.2.1 ⟨7, 1, 31, 32, true⟩ 20 [112, 0] [118, 0, 61] [112] 3
    { callbackContext := ⟨NULL, 11, 12, 13⟩, errorCode := 0, trace := [] }
    (by decide) (by decide) rfl (by decide) (by decide) (by decide)

/-- C3 (leak-free session creation): for non-NULL carrier and target-address arguments, when
`GetStringUTFChars` yields the address and `ela_session_new` returns a non-NULL session,
(1) if `newJavaSession` reports failure, `createSession` returns NULL, records the
language-binding error code, and its last call is `ela_session_close` on that session, the
only session the run closes;
(2) if `newJavaSession` reports success and stored a non-NULL object, `createSession`
returns that object, leaves the error code alone, and closes no session. -/
theorem createSession_closes_iff_wrap_fails (c : ElaErrors) (o : CreateOutcomes)
    (env thiz jcarrier jto jtype : Ptr) (toBuf : List Byte) (s : State)
    (hc : jcarrier ≠ NULL) (hto : jto ≠ NULL) (hchars : o.GetStringUTFChars = some toBuf)
    (hs : o.ela_session_new ≠ NULL) :
    (o.newJavaSession = false →
      ∃ s1, createSession c o env thiz jcarrier jto jtype s = Except.ok (NULL, s1) ∧
        s1.errorCode = c.languageBinding ∧
        s1.callbackContext = s.callbackContext ∧
        s1.trace = s.trace ++
          [Event.GetStringUTFChars env jto (some toBuf),
           Event.getCarrier env jcarrier o.getCarrier,
           Event.ela_session_new o.getCarrier (some toBuf) o.ela_session_new,
           Event.ReleaseStringUTFChars env jto (some toBuf),
           Event.newJavaSession env o.ela_session_new jto false NULL,
           Event.ela_session_close o.ela_session_new] ∧
        closedSessions s1.trace = closedSessions s.trace ++ [o.ela_session_new]) ∧
    (o.newJavaSession = true → o.newJavaSession_jsession ≠ NULL →
      ∃ r s1, createSession c o env thiz jcarrier jto jtype s = Except.ok (r, s1) ∧
        r = o.newJavaSession_jsession ∧ r ≠ NULL ∧
        s1.errorCode = s.errorCode ∧
        s1.callbackContext = s.callbackContext ∧
        s1.trace = s.trace ++
          [Event.GetStringUTFChars env jto (some toBuf),
           Event.getCarrier env jcarrier o.getCarrier,
           Event.ela_session_new o.getCarrier (some toBuf) o.ela_session_new,
           Event.ReleaseStringUTFChars env jto (some toBuf),
           Event.newJavaSession env o.ela_session_new jto true o.newJavaSession_jsession] ∧
        closedSessions s1.trace = closedSessions s.trace) := by
  constructor
  · intro hok
    simp [createSession, bind, Except.bind, pure, Except.pure, State.emit, setErrorCode, hc, hto,
      hchars, hs, hok, closedSessions, List.filterMap_append]
  · intro hok hobj
    have hrun : createSession c o env thiz jcarrier jto jtype s =
        Except.ok (o.newJavaSession_jsession,
          { s with trace := s.trace ++
            [Event.GetStringUTFChars env jto (some toBuf),
             Event.getCarrier env jcarrier o.getCarrier,
             Event.ela_session_new o.getCarrier (some toBuf) o.ela_session_new,
             Event.ReleaseStringUTFChars env jto (some toBuf),
             Event.newJavaSession env o.ela_session_new jto true o.newJavaSession_jsession] }) := by
      simp [createSession, bind, Except.bind, pure, Except.pure, State.emit, hc, hto, hchars,
        hs, hok]
    exact ⟨_, _, hrun, rfl, hobj, rfl, rfl, rfl, by simp [closedSessions, List.filterMap_append]⟩

theorem createSession_closes_iff_wrap_fails_witness :
    (∃ s1, createSession ⟨-1, -2⟩ ⟨some [116, 0], 20, 40, -77, false, 50⟩ 1 2 3 4 5
        (State.init 0) = Except.ok (NULL, s1) ∧
      s1.errorCode = -1 ∧
      s1.callbackContext = ⟨0, 0, 0, 0⟩ ∧
      s1.trace =
        [Event.GetStringUTFChars 1 4 (some [116, 0]), Event.getCarrier 1 3 20,
         Event.ela_session_new 20 (some [116, 0]) 40,
         Event.ReleaseStringUTFChars 1 4 (some [116, 0]),
         Event.newJavaSession 1 40 4 false NULL, Event.ela_session_close 40] ∧
      closedSessions s1.trace = [40]) ∧
    (∃ r s1, createSession ⟨-1, -2⟩ ⟨some [116, 0], 20, 40, -77, true, 50⟩ 1 2 3 4 5
        (State.init 0) = Except.ok (r, s1) ∧
      r = 50 ∧ r ≠ NULL ∧
      s1.errorCode = 0 ∧
      s1.callbackContext = ⟨0, 0, 0, 0⟩ ∧
      s1.trace =
        [Event.GetStringUTFChars 1 4 (some [116, 0]), Event.getCarrier 1 3 20,
         Event.ela_session_new 20 (some [116, 0]) 40,
         Event.ReleaseStringUTFChars 1 4 (some [116, 0]),
         Event.newJavaSession 1 40 4 true 50] ∧
      closedSessions s1.trace = []) :=
  ⟨(createSession_closes_iff_wrap_fails ⟨-1, -2⟩ ⟨some [116, 0], 20, 40, -77, false, 50⟩
      1 2 3 4 5 [116, 0] (State.init 0) (by decide) (by decide) rfl (by decide)).1 rfl,
   (createSession_closes_iff_wrap_fails ⟨-1, -2⟩ ⟨some [116, 0], 20, 40, -77, true, 50⟩
      1 2 3 4 5 [116, 0] (State.init 0) (by decide) (by decide) rfl (by decide)).2 rfl
      (by decide)⟩

/-- Read off the calls of a run: for non-NULL carrier (and target-address) arguments both
functions return, and a run of `sessionMgrInit` whose own calls include `ela_session_init`
with a negative result returns false with the `ela_get_error` value as error code; a run of
`createSession` whose own calls include `ela_session_new` with result NULL returns NULL with
the `ela_get_error` value as error code. -/
theorem engine_failure_event_error_code (c : ElaErrors) :
    (∀ (o : InitOutcomes) (env clazz jcarrier jhandler : Ptr) (s : State), jcarrier ≠ NULL →
      ∃ r s1, sessionMgrInit c o env clazz jcarrier jhandler s = Except.ok (r, s1) ∧
        ((∃ carrier cb ctx res, res < 0 ∧
            Event.ela_session_init carrier cb ctx res ∈ s1.trace.drop s.trace.length) →
          r = false ∧ ∀ env2 clazz2, getErrorCode env2 clazz2 s1 = o.ela_get_error)) ∧
    (∀ (o : CreateOutcomes) (env thiz jcarrier jto jtype : Ptr) (s : State),
      jcarrier ≠ NULL → jto ≠ NULL →
      ∃ r s1, createSession c o env thiz jcarrier jto jtype s = Except.ok (r, s1) ∧
        ((∃ carrier to_,
            Event.ela_session_new carrier to_ NULL ∈ s1.trace.drop s.trace.length) →
          r = NULL ∧ ∀ env2 clazz2, getErrorCode env2 clazz2 s1 = o.ela_get_error)) := by
  constructor
  · intro o env clazz jcarrier jhandler s hj
    by_cases hh : jhandler = NULL
    · subst hh
      refine ⟨_, _, sessionMgrInit_null_handler c o env clazz jcarrier s hj, ?_⟩
      rintro ⟨carrier, cb, ctx, res, hres, hmem⟩
      by_cases hr : o.ela_session_init < 0
      · simp [hr, not_le.mpr hr, getErrorCode, _getErrorCode]
      · simp [hr] at hmem
        omega
    by_cases hc : o.GetObjectClass = NULL
    · refine ⟨_, _, sessionMgrInit_classLookup_fails c o env clazz jcarrier jhandler s hj hh hc, ?_⟩
      rintro ⟨carrier, cb, ctx, res, hres, hmem⟩
      simp at hmem
    by_cases hfail : o.NewGlobalRef_clazz = NULL ∨ o.NewGlobalRef_carrier = NULL ∨
        o.NewGlobalRef_handler = NULL
    · refine ⟨_, _,
        sessionMgrInit_globalRef_fails c o env clazz jcarrier jhandler s hj hh hc hfail, ?_⟩
      rintro ⟨carrier, cb, ctx, res, hres, hmem⟩
      simp at hmem
    · simp only [not_or] at hfail
      obtain ⟨h1, h2, h3⟩ := hfail
      refine ⟨_, _,
        sessionMgrInit_registered c o env clazz jcarrier jhandler s hj hh hc h1 h2 h3, ?_⟩
      rintro ⟨carrier, cb, ctx, res, hres, hmem⟩
      by_cases hr : o.ela_session_init < 0
      · simp [hr, not_le.mpr hr, getErrorCode, _getErrorCode]
      · simp [hr] at hmem
        omega
  · intro o env thiz jcarrier jto jtype s hj hto
    cases hchars : o.GetStringUTFChars with
    | none =>
      refine ⟨NULL, { s with
        errorCode := c.languageBinding,
        trace := s.trace ++ [Event.GetStringUTFChars env jto none] }, ?_, ?_⟩
      · simp [createSession, bind, Except.bind, pure, Except.pure, State.emit, setErrorCode,
          hj, hto, hchars]
      · rintro ⟨carrier, to_, hmem⟩
        simp at hmem
    | some toBuf =>
      by_cases hs : o.ela_session_new = NULL
      · refine ⟨NULL, { s with
          errorCode := o.ela_get_error,
          trace := s.trace ++
            [Event.GetStringUTFChars env jto (some toBuf),
             Event.getCarrier env jcarrier o.getCarrier,
             Event.ela_session_new o.getCarrier (some toBuf) NULL,
             Event.ReleaseStringUTFChars env jto (some toBuf),
             Event.logE "Call ela_session_new API error",
             Event.ela_get_error o.ela_get_error] }, ?_, ?_⟩
        · simp [createSession, bind, Except.bind, pure, Except.pure, State.emit, setErrorCode,
            hj, hto, hchars, hs]
        · intro _
          simp [getErrorCode, _getErrorCode]
      · cases hok : o.newJavaSession with
        | false =>
          refine ⟨NULL, { s with
            errorCode := c.languageBinding,
            trace := s.trace ++
              [Event.GetStringUTFChars env jto (some toBuf),
               Event.getCarrier env jcarrier o.getCarrier,
               Event.ela_session_new o.getCarrier (some toBuf) o.ela_session_new,
               Event.ReleaseStringUTFChars env jto (some toBuf),
               Event.newJavaSession env o.ela_session_new jto false NULL,
               Event.ela_session_close o.ela_session_new] }, ?_, ?_⟩
          · simp [createSession, bind, Except.bind, pure, Except.pure, State.emit,
              setErrorCode, hj, hto, hchars, hs, hok]
          · rintro ⟨carrier, to_, hmem⟩
            simp at hmem
            exact absurd hmem.2.2.symm hs
        | true =>
          refine ⟨o.newJavaSession_jsession, { s with trace := s.trace ++
            [Event.GetStringUTFChars env jto (some toBuf),
             Event.getCarrier env jcarrier o.getCarrier,
             Event.ela_session_new o.getCarrier (some toBuf) o.ela_session_new,
             Event.ReleaseStringUTFChars env jto (some toBuf),
             Event.newJavaSession env o.ela_session_new jto true
               o.newJavaSession_jsession] }, ?_, ?_⟩
          · simp [createSession, bind, Except.bind, pure, Except.pure, State.emit, hj, hto,
              hchars, hs, hok]
          · rintro ⟨carrier, to_, hmem⟩
            simp at hmem
            exact absurd hmem.2.2.symm hs

/-- C2 (error-code fidelity): for every value `ela_get_error` reports,
(1) `sessionMgrInit` without a handler, when `ela_session_init` returns a negative result,
calls `getCarrier`, `ela_session_init`, `logE`, `ela_get_error`, returns false, and
`getErrorCode` then yields the value `ela_get_error` reported;
(2) `sessionMgrInit` with a handler, when the class lookup and the three `NewGlobalRef` calls
succeed (so that `ela_session_init` is called) and `ela_session_init` returns a negative
result, returns false after the calls listed, and `getErrorCode` then yields the value
`ela_get_error` reported;
(3) `createSession`, when `GetStringUTFChars` yields the address (so that `ela_session_new`
is called) and `ela_session_new` returns NULL, returns NULL after the calls listed, and
`getErrorCode` then yields the value `ela_get_error` reported;
(4) these are the only runs in which the engine call fails: a run whose own calls include
`ela_session_init` with a negative result (`ela_session_new` with result NULL) returns false
(NULL) with the `ela_get_error` value as error code. -/
theorem engine_error_code_fidelity (c : ElaErrors) :
    (∀ (o : InitOutcomes) (env clazz jcarrier : Ptr) (s : State),
      jcarrier ≠ NULL → o.ela_session_init < 0 →
      ∃ s1, sessionMgrInit c o env clazz jcarrier NULL s = Except.ok (false, s1) ∧
        (∀ env2 clazz2, getErrorCode env2 clazz2 s1 = o.ela_get_error) ∧
        s1.trace = s.trace ++
          [Event.getCarrier env jcarrier o.getCarrier,
           Event.ela_session_init o.getCarrier Callback.onSessionRequestCallback CCPtr.null
             o.ela_session_init,
           Event.logE "Call ela_session_init API error",
           Event.ela_get_error o.ela_get_error]) ∧
    (∀ (o : InitOutcomes) (env clazz jcarrier jhandler : Ptr) (s : State),
      jcarrier ≠ NULL → jhandler ≠ NULL → o.GetObjectClass ≠ NULL →
      o.NewGlobalRef_clazz ≠ NULL → o.NewGlobalRef_carrier ≠ NULL →
      o.NewGlobalRef_handler ≠ NULL → o.ela_session_init < 0 →
      ∃ s1, sessionMgrInit c o env clazz jcarrier jhandler s = Except.ok (false, s1) ∧
        (∀ env2 clazz2, getErrorCode env2 clazz2 s1 = o.ela_get_error) ∧
        s1.trace = s.trace ++
          [Event.GetObjectClass env jhandler o.GetObjectClass,
           Event.NewGlobalRef env o.GetObjectClass o.NewGlobalRef_clazz,
           Event.NewGlobalRef env jcarrier o.NewGlobalRef_carrier,
           Event.NewGlobalRef env jhandler o.NewGlobalRef_handler,
           Event.getCarrier env jcarrier o.getCarrier,
           Event.ela_session_init o.getCarrier Callback.onSessionRequestCallback
             CCPtr.callbackContext o.ela_session_init,
           Event.logE "Call ela_session_init API error",
           Event.ela_get_error o.ela_get_error]) ∧
    (∀ (o : CreateOutcomes) (env thiz jcarrier jto jtype : Ptr) (toBuf : List Byte) (s : State),
      jcarrier ≠ NULL → jto ≠ NULL → o.GetStringUTFChars = some toBuf →
      o.ela_session_new = NULL →
      ∃ s1, createSession c o env thiz jcarrier jto jtype s = Except.ok (NULL, s1) ∧
        (∀ env2 clazz2, getErrorCode env2 clazz2 s1 = o.ela_get_error) ∧
        s1.trace = s.trace ++
          [Event.GetStringUTFChars env jto (some toBuf),
           Event.getCarrier env jcarrier o.getCarrier,
           Event.ela_session_new o.getCarrier (some toBuf) NULL,
           Event.ReleaseStringUTFChars env jto (some toBuf),
           Event.logE "Call ela_session_new API error",
           Event.ela_get_error o.ela_get_error]) ∧
    (∀ (o : InitOutcomes) (env clazz jcarrier jhandler : Ptr) (s : State), jcarrier ≠ NULL →
      ∃ r s1, sessionMgrInit c o env clazz jcarrier jhandler s = Except.ok (r, s1) ∧
        ((∃ carrier cb ctx res, res < 0 ∧
            Event.ela_session_init carrier cb ctx res ∈ s1.trace.drop s.trace.length) →
          r = false ∧ ∀ env2 clazz2, getErrorCode env2 clazz2 s1 = o.ela_get_error)) ∧
    (∀ (o : CreateOutcomes) (env thiz jcarrier jto jtype : Ptr) (s : State),
      jcarrier ≠ NULL → jto ≠ NULL →
      ∃ r s1, createSession c o env thiz jcarrier jto jtype s = Except.ok (r, s1) ∧
        ((∃ carrier to_,
            Event.ela_session_new carrier to_ NULL ∈ s1.trace.drop s.trace.length) →
          r = NULL ∧ ∀ env2 clazz2, getErrorCode env2 clazz2 s1 = o.ela_get_error)) := by
  refine ⟨?_, ?_, ?_, (engine_failure_event_error_code c).1,
    (engine_failure_event_error_code c).2⟩
  · intro o env clazz jcarrier s hj hr
    refine ⟨State.mk ⟨NULL, NULL, NULL, NULL⟩ o.ela_get_error
      (s.trace ++
        [Event.getCarrier env jcarrier o.getCarrier,
         Event.ela_session_init o.getCarrier Callback.onSessionRequestCallback CCPtr.null
           o.ela_session_init,
         Event.logE "Call ela_session_init API error",
         Event.ela_get_error o.ela_get_error]), ?_, fun _ _ => rfl, rfl⟩
    simp [sessionMgrInit, bind, Except.bind, pure, Except.pure, State.emit, setErrorCode,
      hj, hr]
  · intro o env clazz jcarrier jhandler s hj hh hc h1 h2 h3 hr
    refine ⟨State.mk
      ⟨NULL, o.NewGlobalRef_clazz, o.NewGlobalRef_carrier, o.NewGlobalRef_handler⟩
      o.ela_get_error
      (s.trace ++
        [Event.GetObjectClass env jhandler o.GetObjectClass,
         Event.NewGlobalRef env o.GetObjectClass o.NewGlobalRef_clazz,
         Event.NewGlobalRef env jcarrier o.NewGlobalRef_carrier,
         Event.NewGlobalRef env jhandler o.NewGlobalRef_handler,
         Event.getCarrier env jcarrier o.getCarrier,
         Event.ela_session_init o.getCarrier Callback.onSessionRequestCallback
           CCPtr.callbackContext o.ela_session_init,
         Event.logE "Call ela_session_init API error",
         Event.ela_get_error o.ela_get_error]), ?_, fun _ _ => rfl, rfl⟩
    simp [sessionMgrInit, callbackCtxtSet, bind, Except.bind, pure, Except.pure, State.emit,
      setErrorCode, hj, hh, hc, h1, h2, h3, hr]
  · intro o env thiz jcarrier jto jtype toBuf s hj hto hchars hs
    refine ⟨{ s with
      errorCode := o.ela_get_error,
      trace := s.trace ++
        [Event.GetStringUTFChars env jto (some toBuf),
         Event.getCarrier env jcarrier o.getCarrier,
         Event.ela_session_new o.getCarrier (some toBuf) NULL,
         Event.ReleaseStringUTFChars env jto (some toBuf),
         Event.logE "Call ela_session_new API error",
         Event.ela_get_error o.ela_get_error] }, ?_, ?_, rfl⟩
    · simp [createSession, bind, Except.bind, pure, Except.pure, State.emit, setErrorCode,
        hj, hto, hchars, hs]
    · intro env2 clazz2
      rfl

theorem engine_error_code_fidelity_witness :
    (∃ s1, sessionMgrInit ⟨-1, -2⟩ ⟨0, 0, 0, 0, 20, -1, -76⟩ 1 2 3 NULL (State.init 0) =
        Except.ok (false, s1) ∧
      (∀ env2 clazz2, getErrorCode env2 clazz2 s1 = -76) ∧
      s1.trace =
        [Event.getCarrier 1 3 20,
         Event.ela_session_init 20 Callback.onSessionRequestCallback CCPtr.null (-1),
         Event.logE "Call ela_session_init API error", Event.ela_get_error (-76)]) ∧
    (∃ s1, sessionMgrInit ⟨-1, -2⟩ ⟨10, 11, 12, 13, 20, -1, -77⟩ 1 2 3 4 (State.init 0) =
        Except.ok (false, s1) ∧
      (∀ env2 clazz2, getErrorCode env2 clazz2 s1 = -77) ∧
      s1.trace =
        [Event.GetObjectClass 1 4 10, Event.NewGlobalRef 1 10 11, Event.NewGlobalRef 1 3 12,
         Event.NewGlobalRef 1 4 13, Event.getCarrier 1 3 20,
         Event.ela_session_init 20 Callback.onSessionRequestCallback CCPtr.callbackContext (-1),
         Event.logE "Call ela_session_init API error", Event.ela_get_error (-77)]) ∧
    (∃ s1, createSession ⟨-1, -2⟩ ⟨some [116, 0], 20, NULL, -78, false, 0⟩ 1 2 3 4 5
        (State.init 0) = Except.ok (NULL, s1) ∧
      (∀ env2 clazz2, getErrorCode env2 clazz2 s1 = -78) ∧
      s1.trace =
        [Event.GetStringUTFChars 1 4 (some [116, 0]), Event.getCarrier 1 3 20,
         Event.ela_session_new 20 (some [116, 0]) NULL,
         Event.ReleaseStringUTFChars 1 4 (some [116, 0]),
         Event.logE "Call ela_session_new API error", Event.ela_get_error (-78)]) :=
  ⟨(engine_error_code_fidelity ⟨-1, -2⟩).1 ⟨0, 0, 0, 0, 20, -1, -76⟩ 1 2 3 (State.init 0)
      (by decide) (by decide),
   (engine_error_code_fidelity ⟨-1, -2⟩).2.1 ⟨10, 11, 12, 13, 20, -1, -77⟩ 1 2 3 4
      (State.init 0) (by decide) (by decide) (by decide) (by decide) (by decide) (by decide)
      (by decide),
   (engine_error_code_fidelity ⟨-1, -2⟩).2.2.1 ⟨some [116, 0], 20, NULL, -78, false, 0⟩
      1 2 3 4 5 [116, 0] (State.init 0) (by decide) (by decide) rfl rfl⟩

/-- C1 (atomic registration) fails on the engine-failure path. With a handler, a successful
class lookup, three successful `NewGlobalRef` calls (results 11, 12, 13) and
`ela_session_init` returning -1, `sessionMgrInit` returns false while the registry holds the
three global references and none of them has been deleted. -/
theorem sessionMgrInit_engine_failure_keeps_references :
    ∃ s1, sessionMgrInit ⟨-1, -2⟩ ⟨10, 11, 12, 13, 20, -1, -77⟩ 1 2 3 4 (State.init 0) =
        Except.ok (false, s1) ∧
      s1.callbackContext = ⟨NULL, 11, 12, 13⟩ ∧
      s1.trace =
        [Event.GetObjectClass 1 4 10, Event.NewGlobalRef 1 10 11, Event.NewGlobalRef 1 3 12,
         Event.NewGlobalRef 1 4 13, Event.getCarrier 1 3 20,
         Event.ela_session_init 20 Callback.onSessionRequestCallback CCPtr.callbackContext (-1),
         Event.logE "Call ela_session_init API error", Event.ela_get_error (-77)] ∧
      heldGlobalRefs s1.trace = [11, 12, 13] :=
  ⟨_, rfl, rfl, rfl, rfl⟩

/-- C7 (resource exhaustion recorded as out-of-memory) fails. With a handler, a successful
class lookup and a failing `NewGlobalRef` on the carrier, `sessionMgrInit` returns false and
`getErrorCode` then yields the language-binding code, whatever the two codes are: the
out-of-memory code recorded by `callbackCtxtSet` is overwritten. -/
theorem sessionMgrInit_globalRef_failure_error_code (c : ElaErrors) :
    ∃ s1, sessionMgrInit c ⟨10, 11, NULL, 13, 20, 0, 0⟩ 1 2 3 4 (State.init 0) =
        Except.ok (false, s1) ∧
      getErrorCode 1 2 s1 = c.languageBinding ∧
      s1.trace =
        [Event.GetObjectClass 1 4 10, Event.NewGlobalRef 1 10 11, Event.NewGlobalRef 1 3 NULL,
         Event.NewGlobalRef 1 4 13, Event.DeleteGlobalRef 1 13, Event.DeleteGlobalRef 1 11] :=
  ⟨_, rfl, rfl, rfl⟩

/-- With a NULL context, a request on which `attachJvm` and both `NewStringUTF` calls succeed
makes `onSessionRequestCallback` read the registry through the NULL pointer. -/
theorem onSessionRequestCallback_null_context (oc : CallbackOutcomes) (carrier : Ptr)
    (fromBuf sdpBuf fromChars sdpChars : List Byte) (len : Nat) (s : State)
    (hcar : carrier ≠ NULL) (hattach : oc.attachJvm_env ≠ NULL)
    (hfrom : cString fromBuf = some fromChars) (hjfrom : oc.NewStringUTF_from ≠ NULL)
    (hsdp : cString sdpBuf = some sdpChars) (hjsdp : oc.NewStringUTF_sdp ≠ NULL) :
    onSessionRequestCallback oc carrier (some fromBuf) (some sdpBuf) len CCPtr.null s =
      Except.error Fault.nullDeref := by
  simp [onSessionRequestCallback, bind, Except.bind, pure, Except.pure, throw, throwThe,
    MonadExceptOf.throw, State.emit, hcar, hattach, hfrom, hjfrom, hsdp, hjsdp]

/-- C9 (handler-less initialization disables notification) fails. After `sessionMgrInit`
without a handler (returning true, the engine holding a NULL context), the request
(`peer-42`, `v=0`) on which `attachJvm` and both `NewStringUTF` calls succeed does not
complete: `onSessionRequestCallback` dereferences the NULL context to read the registry. -/
theorem onSessionRequestCallback_after_handlerless_init_faults :
    ∃ s1, sessionMgrInit ⟨-1, -2⟩ ⟨0, 0, 0, 0, 20, 0, 0⟩ 1 2 3 NULL (State.init 0) =
        Except.ok (true, s1) ∧
      registeredContext s1.trace = some CCPtr.null ∧
      onSessionRequestCallback ⟨7, 1, 31, 32, true⟩ 20
          (some [112, 101, 101, 114, 45, 52, 50, 0]) (some [118, 61, 48, 0]) 3 CCPtr.null s1 =
        Except.error Fault.nullDeref :=
  ⟨_, rfl, rfl, rfl⟩

end SessionManager
